import Mathlib

/-!
Verification of `gen_fp.py` (ZINC20_LibraryPrep): a single-pass converter
from a SMILES text file to an HDF5 container with three aligned columns
(`fp_list`, `smiles_list`, `name_list`).

The embedding below is a shallow model of the script.  The external
chemistry toolkit (RDKit) is kept opaque: `parse` models
`Chem.MolFromSmiles` (returning `none` for an unparsable encoding, since
an RDKit `Mol` has no custom truthiness, `if mol:` is a `None` test) and
`fpv` models `GetMorganFingerprintAsBitVect(mol, 3, 1024)` followed by
`ConvertToNumpyArray` (a vector of 0/1 values; its length 1024 is stated
as a hypothesis where needed).  Since every in-memory numeric value is an
exactly representable 0.0 or 1.0, float64/float32 values are modelled by
`Nat` entries; the `dtype=np.float32` argument is carried as a tag.
File and process effects (h5py handle lifecycle, argv handling, ordering
of input reading vs. output creation) are modelled by small explicit
outcome structures that mirror the script's straight-line control flow,
with Booleans injecting the points where a library call may raise.
-/

namespace GenFp

/-- ASCII whitespace recognised by Python's `str.strip()` (the input data
is ASCII; the Unicode whitespace cases of `strip` do not matter here). -/
def isPySpace (c : Char) : Bool :=
  c = ' ' || c = '\t' || c = '\n' || c = '\r' || c = '\x0b' || c = '\x0c'

/-- Model of `line.strip()`: drop leading and trailing whitespace. -/
def pyStrip (s : String) : String :=
  ⟨((s.data.dropWhile isPySpace).reverse.dropWhile isPySpace).reverse⟩

/-- Helper for `pySplitSpace`: walk the characters, cutting at every single
space character and keeping empty fields (Python `str.split(" ")`). -/
def splitSpaceAux : List Char → List Char → List (List Char)
  | [], acc => [acc.reverse]
  | c :: cs, acc =>
    if c = ' ' then acc.reverse :: splitSpaceAux cs []
    else splitSpaceAux cs (c :: acc)

/-- Model of Python `s.split(" ")`: split at each single space character,
keeping empty fields (so `"a  b"` gives `["a", "", "b"]` and `""` gives
`[""]`).  This is NOT whitespace splitting: tabs do not separate. -/
def pySplitSpace (s : String) : List String :=
  (splitSpaceAux s.data []).map fun l => ⟨l⟩

/-- Model of `s.encode("ascii", "ignore")`: each character below code
point 128 becomes one byte; any other character is silently dropped
(the `"ignore"` error handler), never an error. -/
def encAsciiIgnore : List Char → List Nat
  | [] => []
  | c :: cs => if c.toNat < 128 then c.toNat :: encAsciiIgnore cs else encAsciiIgnore cs

/-- `s.encode("ascii", "ignore")` on a string. -/
def encodeAsciiIgnore (s : String) : List Nat :=
  encAsciiIgnore s.data

variable {Mol : Type}

/-- The loop body of `generate_fingerprints` over the post-header lines:
`toks = line.strip().split(" ")`; if `len(toks) >= 2`, token 0 is the
SMILES and token 1 the name; `Chem.MolFromSmiles` failure (`None`) skips
the record; otherwise the fingerprint vector and the two ASCII-encoded
strings are appended to the three accumulators.  The recursion prepends
the current record before the records of the remaining lines, which is
the same first-to-last order as the Python `append` loop. -/
def genLoop (parse : String → Option Mol) (fpv : Mol → List Nat) :
    List String → List (List Nat) × List (List Nat) × List (List Nat)
  | [] => ([], [], [])
  | line :: rest =>
    let toks := pySplitSpace (pyStrip line)
    let r := genLoop parse fpv rest
    if 2 ≤ toks.length then
      match parse (toks.headD "") with
      | some mol =>
          (fpv mol :: r.1,
           encodeAsciiIgnore (toks.headD "") :: r.2.1,
           encodeAsciiIgnore ((toks.drop 1).headD "") :: r.2.2)
      | none => r
    else r

/-- Model of `generate_fingerprints`: `islice(ifs, 1, None)` skips exactly
the first line of the file (even when the file has zero or one lines) and
iterates the remaining lines in order; `tqdm` is a transparent wrapper.
The input file is modelled as its list of line contents. -/
def generate_fingerprints (parse : String → Option Mol) (fpv : Mol → List Nat)
    (lines : List String) :
    List (List Nat) × List (List Nat) × List (List Nat) :=
  genLoop parse fpv (lines.drop 1)

/-- The records `(smiles, name)` that the loop accepts, in order: lines
whose stripped single-space split has at least two tokens and whose first
token is accepted by the parser.  Spec-side description used to state
alignment of the three output columns. -/
def specAcceptedRecords (parse : String → Option Mol) : List String → List (String × String)
  | [] => []
  | line :: rest =>
    let toks := pySplitSpace (pyStrip line)
    if 2 ≤ toks.length then
      match parse (toks.headD "") with
      | some _ => (toks.headD "", (toks.drop 1).headD "") :: specAcceptedRecords parse rest
      | none => specAcceptedRecords parse rest
    else specAcceptedRecords parse rest

/-- The fingerprint vector computed for an accepted SMILES (only applied
to strings the parser accepts; the `none` branch is never reached there). -/
def fpOf (parse : String → Option Mol) (fpv : Mol → List Nat) (s : String) : List Nat :=
  match parse s with
  | some m => fpv m
  | none => []

/-- Shape of `np.array(lst, dtype=...)` for a list of equal-length rows:
`np.array([])` is a 1-D array of shape `(0,)`; a non-empty list of rows of
length `M` gives shape `(N, M)`. -/
def npShape : List (List Nat) → List Nat
  | [] => [0]
  | r :: rs => [rs.length + 1, r.length]

/-- A numpy array as materialised by `make_np_array`: its shape, its dtype
tag, and its entries (all 0/1 here, hence exact in float32). -/
structure NpArray where
  shape : List Nat
  dtype : String
  rows : List (List Nat)
deriving DecidableEq

/-- Model of `make_np_array(lst)` = `np.array(lst, dtype=np.float32)`. -/
def make_np_array (lst : List (List Nat)) : NpArray :=
  ⟨npShape lst, "float32", lst⟩

/-- The pure data content of one run of `main`: the three columns that
`save_data` writes under `fp_list`, `smiles_list`, `name_list`. -/
def runPipeline (parse : String → Option Mol) (fpv : Mol → List Nat)
    (lines : List String) : NpArray × List (List Nat) × List (List Nat) :=
  let r := generate_fingerprints parse fpv lines
  (make_np_array r.1, r.2.1, r.2.2)

/-- Observable effects of one call to `save_data`: whether the output path
was created/truncated by `h5py.File(outfile_name, 'w')`, whether a handle
was acquired, whether `h5f.close()` ran before the call returned or its
exception propagated, and which step (if any) raised. -/
structure SaveOutcome where
  fileCreated : Bool
  handleAcquired : Bool
  handleClosed : Bool
  raised : Option String
deriving DecidableEq

/-- Model of `save_data`'s straight-line body, with a Boolean per library
call that may raise.  The source has no `with` block and no `try/finally`:
`h5f = h5py.File(outfile_name, 'w')` (creates/truncates the file), then
three `create_dataset` calls, then `h5f.close()`.  An exception in any
`create_dataset` propagates before the `close()` line is reached, so on
those paths the handle is left open (released only by garbage collection
or interpreter shutdown, not by `save_data`). -/
def save_data (failOpen failFp failSmiles failNames : Bool) : SaveOutcome :=
  if failOpen then ⟨false, false, false, some "open"⟩
  else if failFp then ⟨true, true, false, some "fp_list"⟩
  else if failSmiles then ⟨true, true, false, some "smiles_list"⟩
  else if failNames then ⟨true, true, false, some "name_list"⟩
  else ⟨true, true, true, none⟩

/-- Outcome of the `__main__` argv guard: the usage line printed to stdout
(if any), the guard's `sys.exit` status (if it exits), and the arguments
passed on to `main` when it runs. -/
structure CliOutcome where
  printedUsage : Option String
  exitStatus : Option Nat
  pipelineArgs : Option (String × String)
deriving DecidableEq

/-- Model of the `__main__` block: `sys.argv` holds the program name plus
the positional arguments, so `len(sys.argv) != 3` means the count of
positional arguments differs from two; in that case the usage f-string is
printed (Python `print` writes to stdout) and `sys.exit(1)` runs before
anything else; otherwise `main(sys.argv[1], sys.argv[2])` runs. -/
def topLevel (argv : List String) : CliOutcome :=
  if argv.length ≠ 3 then
    ⟨some ("usage: " ++ argv.headD "" ++ " infile.smi outfile.h5"), some 1, none⟩
  else
    ⟨none, none, some ((argv.drop 1).headD "", (argv.drop 2).headD "")⟩

/-- Filesystem effects of one run of `main` at the output path. -/
structure RunEffects where
  outputTouched : Bool
  saved : Option SaveOutcome
deriving DecidableEq

/-- Model of `main`'s control flow: `generate_fingerprints` (which opens
and reads the input file and processes every record) runs first; if it
raises — input file unopenable/unreadable, or a record's processing
raises — the exception propagates out of `main` before `save_data` is
ever called, so nothing touches the output path.  Only when the input
phase returns are the accumulated rows materialised by `make_np_array`
and then handed to `save_data`, whose `h5py.File(outfile_name, 'w')` is
the sole operation on the output path in the program. -/
def mainRun (inputPhase : Except String (List (List Nat)))
    (failOpen failFp failSmiles failNames : Bool) : RunEffects :=
  match inputPhase with
  | .error _ => ⟨false, none⟩
  | .ok fps =>
    let _arr := make_np_array fps
    let s := save_data failOpen failFp failSmiles failNames
    ⟨s.fileCreated, some s⟩

/-- A parser that accepts every encoding (concrete instance for witnesses). -/
def parseAll : String → Option Unit := fun _ => some ()

/-- A parser that accepts exactly the string "CCO" (concrete instance). -/
def parseCCO : String → Option Unit := fun s => if s = "CCO" then some () else none

/-- A constant 1024-bit fingerprint capability (concrete instance). -/
def fpOnes : Unit → List Nat := fun _ => List.replicate 1024 1

/-! ### Structural lemmas about the record loop -/

/-- The three accumulators of the loop are the images of one record list:
this is the alignment invariant behind all three output columns. -/
theorem genLoop_eq_spec (parse : String → Option Mol) (fpv : Mol → List Nat) :
    ∀ lines : List String,
      genLoop parse fpv lines =
        ((specAcceptedRecords parse lines).map fun r => fpOf parse fpv r.1,
         (specAcceptedRecords parse lines).map fun r => encodeAsciiIgnore r.1,
         (specAcceptedRecords parse lines).map fun r => encodeAsciiIgnore r.2) := by
  intro lines
  induction lines with
  | nil => rfl
  | cons line rest ih =>
    simp only [genLoop, specAcceptedRecords, ih]
    split
    · cases hp : parse ((pySplitSpace (pyStrip line)).headD "") with
      | some m => simp only [fpOf, hp, List.map_cons]
      | none => simp only [hp]
    · rfl

/-- Every accepted record's first token is accepted by the parser. -/
theorem specAcceptedRecords_isSome (parse : String → Option Mol) :
    ∀ lines : List String, ∀ r ∈ specAcceptedRecords parse lines,
      (parse r.1).isSome = true := by
  intro lines
  induction lines with
  | nil => intro r hr; cases hr
  | cons line rest ih =>
    intro r hr
    simp only [specAcceptedRecords] at hr
    revert hr
    split
    · cases hp : parse ((pySplitSpace (pyStrip line)).headD "") with
      | some m =>
        simp only [hp, List.mem_cons]
        rintro (rfl | hr)
        · rw [hp]; rfl
        · exact ih r hr
      | none => simp only [hp]; exact ih r
    · exact ih r

/-- The number of accepted records is the count of lines with at least two
tokens whose first token the parser accepts. -/
theorem specAcceptedRecords_length (parse : String → Option Mol) :
    ∀ lines : List String,
      (specAcceptedRecords parse lines).length =
        lines.countP fun line =>
          decide (2 ≤ (pySplitSpace (pyStrip line)).length) &&
            (parse ((pySplitSpace (pyStrip line)).headD "")).isSome := by
  intro lines
  induction lines with
  | nil => rfl
  | cons line rest ih =>
    simp only [specAcceptedRecords, List.countP_cons]
    split
    · cases hp : parse ((pySplitSpace (pyStrip line)).headD "") with
      | some m => simp_all
      | none => simp_all
    · rename_i hlen
      simp_all

/-! ### Lemmas about single-space splitting -/

/-- Splitting a chunk with no space followed by a space cuts exactly at
that space. -/
theorem splitSpaceAux_append_space :
    ∀ (xs : List Char), (' ' ∉ xs) → ∀ (acc ys : List Char),
      splitSpaceAux (xs ++ ' ' :: ys) acc =
        (acc.reverse ++ xs) :: splitSpaceAux ys [] := by
  intro xs
  induction xs with
  | nil => intro _ acc ys; simp [splitSpaceAux]
  | cons c cs ih =>
    intro hx acc ys
    have hc : c ≠ ' ' := fun h => hx (h ▸ List.mem_cons_self c cs)
    have hcs : ' ' ∉ cs := fun h => hx (List.mem_cons_of_mem c h)
    rw [List.cons_append]
    rw [show splitSpaceAux (c :: (cs ++ ' ' :: ys)) acc
          = splitSpaceAux (cs ++ ' ' :: ys) (c :: acc) from by
      simp [splitSpaceAux, hc]]
    rw [ih hcs (c :: acc) ys]
    simp

/-- `(a ++ "  " ++ b).split(" ")` is `a`, the empty field between the two
spaces, then the split of `b`, provided `a` itself contains no space. -/
theorem pySplitSpace_double_space (a b : String) (ha : ' ' ∉ a.data) :
    pySplitSpace (a ++ "  " ++ b) = a :: "" :: pySplitSpace b := by
  have hdata : (a ++ "  " ++ b).data = a.data ++ ' ' :: ' ' :: b.data := by
    simp only [String.data_append, List.append_assoc]
    rfl
  simp only [pySplitSpace, hdata]
  rw [splitSpaceAux_append_space a.data ha]
  rw [show splitSpaceAux (' ' :: b.data) [] = [] :: splitSpaceAux b.data [] from by
    simp [splitSpaceAux]]
  simp only [List.map_cons, List.nil_append, List.reverse_nil]

/-- A line with fewer than two tokens is skipped: the loop output is
unchanged. -/
theorem genLoop_cons_skip (parse : String → Option Mol) (fpv : Mol → List Nat)
    (line : String) (rest : List String)
    (h : (pySplitSpace (pyStrip line)).length < 2) :
    genLoop parse fpv (line :: rest) = genLoop parse fpv rest := by
  simp only [genLoop]
  rw [if_neg (by omega)]

/-- A line with at least two tokens whose first token parses is accepted:
its fingerprint and its two ASCII-encoded tokens are prepended to the
output for the remaining lines. -/
theorem genLoop_cons_accept (parse : String → Option Mol) (fpv : Mol → List Nat)
    (line : String) (rest : List String) (m : Mol)
    (hge : 2 ≤ (pySplitSpace (pyStrip line)).length)
    (hp : parse ((pySplitSpace (pyStrip line)).headD "") = some m) :
    genLoop parse fpv (line :: rest) =
      (fpv m :: (genLoop parse fpv rest).1,
       encodeAsciiIgnore ((pySplitSpace (pyStrip line)).headD "") ::
         (genLoop parse fpv rest).2.1,
       encodeAsciiIgnore (((pySplitSpace (pyStrip line)).drop 1).headD "") ::
         (genLoop parse fpv rest).2.2) := by
  simp only [genLoop]
  rw [if_pos hge, hp]

/-- A line with at least two tokens whose first token the parser rejects
is skipped entirely: no column receives a row. -/
theorem genLoop_cons_reject (parse : String → Option Mol) (fpv : Mol → List Nat)
    (line : String) (rest : List String)
    (hge : 2 ≤ (pySplitSpace (pyStrip line)).length)
    (hp : parse ((pySplitSpace (pyStrip line)).headD "") = none) :
    genLoop parse fpv (line :: rest) = genLoop parse fpv rest := by
  simp only [genLoop]
  rw [if_pos hge, hp]

/-! ### Claim theorems -/

/-- Claim C1: for every input file, the three output columns have the same
row count `N`, where `N` is the number of post-header lines with at least
two tokens whose first token the parser accepts; and the three columns are
the images of one ordered record list, so row `i` of all three columns
comes from the same source record, in the order records were accepted. -/
theorem c1_columns_aligned (parse : String → Option Mol) (fpv : Mol → List Nat)
    (lines : List String) :
    (generate_fingerprints parse fpv lines).1.length =
        (specAcceptedRecords parse (lines.drop 1)).length ∧
    (generate_fingerprints parse fpv lines).2.1.length =
        (specAcceptedRecords parse (lines.drop 1)).length ∧
    (generate_fingerprints parse fpv lines).2.2.length =
        (specAcceptedRecords parse (lines.drop 1)).length ∧
    (specAcceptedRecords parse (lines.drop 1)).length =
      (lines.drop 1).countP (fun line =>
        decide (2 ≤ (pySplitSpace (pyStrip line)).length) &&
          (parse ((pySplitSpace (pyStrip line)).headD "")).isSome) ∧
    (generate_fingerprints parse fpv lines).1 =
      (specAcceptedRecords parse (lines.drop 1)).map (fun r => fpOf parse fpv r.1) ∧
    (generate_fingerprints parse fpv lines).2.1 =
      (specAcceptedRecords parse (lines.drop 1)).map (fun r => encodeAsciiIgnore r.1) ∧
    (generate_fingerprints parse fpv lines).2.2 =
      (specAcceptedRecords parse (lines.drop 1)).map (fun r => encodeAsciiIgnore r.2) := by
  have h := genLoop_eq_spec parse fpv (lines.drop 1)
  unfold generate_fingerprints
  rw [h]
  exact ⟨by simp, by simp, by simp, specAcceptedRecords_length parse _, rfl, rfl, rfl⟩

/-- Claim C5: exactly the first line is skipped as a header,
unconditionally — the output is empty for a zero- or one-line file, the
header's content never matters (even a well-formed first line contributes
nothing), and the remaining lines are processed in order by the loop. -/
theorem c5_header_skipped (parse : String → Option Mol) (fpv : Mol → List Nat)
    (h1 h2 : String) (rest : List String) :
    generate_fingerprints parse fpv ([] : List String) = ([], [], []) ∧
    generate_fingerprints parse fpv [h1] = ([], [], []) ∧
    generate_fingerprints parse fpv (h1 :: rest) = genLoop parse fpv rest ∧
    generate_fingerprints parse fpv (h1 :: rest) =
      generate_fingerprints parse fpv (h2 :: rest) :=
  ⟨rfl, rfl, rfl, rfl⟩

/-- Claim C6: the stored structure and identifier bytes are the original
tokens encoded with the lenient ASCII codec, which keeps exactly the
characters below code point 128 (as their code) and silently drops every
other character — a total function, never an error. -/
theorem c6_ascii_ignore (parse : String → Option Mol) (fpv : Mol → List Nat)
    (lines : List String) (s : String) :
    (generate_fingerprints parse fpv lines).2.1 =
      (specAcceptedRecords parse (lines.drop 1)).map (fun r => encodeAsciiIgnore r.1) ∧
    (generate_fingerprints parse fpv lines).2.2 =
      (specAcceptedRecords parse (lines.drop 1)).map (fun r => encodeAsciiIgnore r.2) ∧
    encodeAsciiIgnore s =
      (s.data.filter fun c => decide (c.toNat < 128)).map Char.toNat := by
  have h := genLoop_eq_spec parse fpv (lines.drop 1)
  unfold generate_fingerprints
  rw [h]
  refine ⟨rfl, rfl, ?_⟩
  unfold encodeAsciiIgnore
  induction s.data with
  | nil => rfl
  | cons c cs ih =>
    by_cases hc : c.toNat < 128
    · simp [encAsciiIgnore, hc, List.filter_cons, ih]
    · simp [encAsciiIgnore, hc, List.filter_cons, ih]

/-- Claim C8: the pipeline is a deterministic function of the input file
and of the (assumed deterministic) parse and fingerprint capabilities:
two runs over equal inputs produce equal output datasets. -/
theorem c8_deterministic (p₁ p₂ : String → Option Mol) (f₁ f₂ : Mol → List Nat)
    (l₁ l₂ : List String) (hp : p₁ = p₂) (hf : f₁ = f₂) (hl : l₁ = l₂) :
    runPipeline p₁ f₁ l₁ = runPipeline p₂ f₂ l₂ := by
  rw [hp, hf, hl]

/-- Witness for C8 at a concrete input. -/
theorem c8_deterministic_witness :
    runPipeline parseAll fpOnes ["h", "CCO eth"] =
      runPipeline parseAll fpOnes ["h", "CCO eth"] :=
  c8_deterministic parseAll parseAll fpOnes fpOnes ["h", "CCO eth"] ["h", "CCO eth"]
    rfl rfl rfl

/-- Claim C3 counterexample: the code splits on the single space
character, not on general whitespace.  A line whose two fields are
separated by a tab yields ONE token, so — contrary to the claim — it does
not count as having two tokens and is skipped with no output. -/
theorem c3_counterexample :
    pySplitSpace (pyStrip "CCO\tethanol") = ["CCO\tethanol"] ∧
    (pySplitSpace (pyStrip "CCO\tethanol")).length = 1 ∧
    generate_fingerprints parseAll fpOnes ["header", "CCO\tethanol"] =
      ([], [], []) :=
  ⟨by decide, by decide, by decide⟩

/-- Claim C3 (amended): each post-header line is stripped and split at
each single space character; with fewer than two tokens the line is
skipped with no output; otherwise token 0 is the structure encoding and
token 1 the identifier, tokens beyond the second being ignored.  A line
whose fields are separated only by a tab yields a single token and is
skipped. -/
theorem c3_single_space_tokenization (parse : String → Option Mol)
    (fpv : Mol → List Nat) (header line : String) (rest : List String) :
    ((pySplitSpace (pyStrip line)).length < 2 →
      generate_fingerprints parse fpv (header :: line :: rest) =
        generate_fingerprints parse fpv (header :: rest)) ∧
    (∀ m : Mol, 2 ≤ (pySplitSpace (pyStrip line)).length →
      parse ((pySplitSpace (pyStrip line)).headD "") = some m →
      generate_fingerprints parse fpv (header :: line :: rest) =
        (fpv m :: (generate_fingerprints parse fpv (header :: rest)).1,
         encodeAsciiIgnore ((pySplitSpace (pyStrip line)).headD "") ::
           (generate_fingerprints parse fpv (header :: rest)).2.1,
         encodeAsciiIgnore (((pySplitSpace (pyStrip line)).drop 1).headD "") ::
           (generate_fingerprints parse fpv (header :: rest)).2.2)) ∧
    (2 ≤ (pySplitSpace (pyStrip line)).length →
      parse ((pySplitSpace (pyStrip line)).headD "") = none →
      generate_fingerprints parse fpv (header :: line :: rest) =
        generate_fingerprints parse fpv (header :: rest)) ∧
    pySplitSpace (pyStrip "CCO\tethanol") = ["CCO\tethanol"] := by
  refine ⟨fun hlt => genLoop_cons_skip parse fpv line rest hlt,
          fun m hge hp => genLoop_cons_accept parse fpv line rest m hge hp,
          fun hge hp => genLoop_cons_reject parse fpv line rest hge hp,
          by decide⟩

/-- Witness for the amended C3 at concrete inputs: a one-token line is
skipped, a space-separated record is accepted with its two tokens, and a
record whose SMILES the parser rejects is skipped. -/
theorem c3_single_space_tokenization_witness :
    generate_fingerprints parseAll fpOnes ["h", "x", "CC m"] =
      generate_fingerprints parseAll fpOnes ["h", "CC m"] ∧
    generate_fingerprints parseCCO fpOnes ["h", "CCO eth"] =
      (fpOnes () :: (generate_fingerprints parseCCO fpOnes ["h"]).1,
       encodeAsciiIgnore ((pySplitSpace (pyStrip "CCO eth")).headD "") ::
         (generate_fingerprints parseCCO fpOnes ["h"]).2.1,
       encodeAsciiIgnore (((pySplitSpace (pyStrip "CCO eth")).drop 1).headD "") ::
         (generate_fingerprints parseCCO fpOnes ["h"]).2.2) ∧
    generate_fingerprints parseCCO fpOnes ["h", "CC m"] =
      generate_fingerprints parseCCO fpOnes ["h"] :=
  ⟨(c3_single_space_tokenization parseAll fpOnes "h" "x" ["CC m"]).1 (by decide),
   (c3_single_space_tokenization parseCCO fpOnes "h" "CCO eth" []).2.1 ()
     (by decide) (by decide),
   (c3_single_space_tokenization parseCCO fpOnes "h" "CC m" []).2.2.1
     (by decide) (by decide)⟩

/-- Claim C9: a post-header line whose first two fields are separated by
two consecutive spaces splits with the empty string at token index 1; if
its first token parses, the record is accepted with the empty byte string
as identifier, the intended identifier surviving only as an ignored extra
token. -/
theorem c9_double_space_empty_identifier (parse : String → Option Mol)
    (fpv : Mol → List Nat) (header line : String) (rest : List String)
    (a b : String) (m : Mol)
    (hstrip : pyStrip line = a ++ "  " ++ b) (ha : ' ' ∉ a.data)
    (hm : parse a = some m) :
    pySplitSpace (pyStrip line) = a :: "" :: pySplitSpace b ∧
    ((pySplitSpace (pyStrip line)).drop 1).headD "x" = "" ∧
    generate_fingerprints parse fpv (header :: line :: rest) =
      (fpv m :: (generate_fingerprints parse fpv (header :: rest)).1,
       encodeAsciiIgnore a :: (generate_fingerprints parse fpv (header :: rest)).2.1,
       ([] : List Nat) :: (generate_fingerprints parse fpv (header :: rest)).2.2) := by
  have hsplit : pySplitSpace (pyStrip line) = a :: "" :: pySplitSpace b := by
    rw [hstrip]
    exact pySplitSpace_double_space a b ha
  refine ⟨hsplit, by rw [hsplit]; rfl, ?_⟩
  have hge : 2 ≤ (pySplitSpace (pyStrip line)).length := by rw [hsplit]; simp
  have hp : parse ((pySplitSpace (pyStrip line)).headD "") = some m := by
    rw [hsplit]; exact hm
  have h := genLoop_cons_accept parse fpv line rest m hge hp
  show genLoop parse fpv (line :: rest) = _
  rw [h, hsplit]
  rfl

/-- Witness for C9: the line "CCO  ethanol" (two spaces) is accepted with
SMILES "CCO" and the empty identifier; "ethanol" is discarded. -/
theorem c9_double_space_empty_identifier_witness :
    pySplitSpace (pyStrip "CCO  ethanol") = "CCO" :: "" :: pySplitSpace "ethanol" ∧
    ((pySplitSpace (pyStrip "CCO  ethanol")).drop 1).headD "x" = "" ∧
    generate_fingerprints parseCCO fpOnes ["h", "CCO  ethanol"] =
      (fpOnes () :: (generate_fingerprints parseCCO fpOnes ["h"]).1,
       encodeAsciiIgnore "CCO" :: (generate_fingerprints parseCCO fpOnes ["h"]).2.1,
       ([] : List Nat) :: (generate_fingerprints parseCCO fpOnes ["h"]).2.2) :=
  c9_double_space_empty_identifier parseCCO fpOnes "h" "CCO  ethanol" []
    "CCO" "ethanol" () (by decide) (by decide) (by decide)

/-- Claim C2 counterexample: for a header-only input (N = 0) the
materialised array `np.array([], dtype=np.float32)` is 1-D with shape
`(0,)`, not a 2-D array of shape `(0, 1024)` as the claim states for
every input file. -/
theorem c2_counterexample :
    (make_np_array (generate_fingerprints parseAll fpOnes ["smiles name"]).1).shape
      = [0] ∧
    ([0] : List Nat) ≠ [0, 1024] ∧
    generate_fingerprints parseAll fpOnes ["smiles name"] = ([], [], []) :=
  ⟨rfl, by decide, rfl⟩

/-- Claim C2 (amended): the materialised fingerprint array is float32 and
holds exactly the per-record fingerprint rows in order; when at least one
record was accepted it is a dense 2-D array of shape `(N, 1024)` (given
the capability returns 1024-bit vectors); when `N = 0` — e.g. a
header-only input — it is the 1-D empty array of shape `(0,)`, and all
three columns of the output still exist with 0 rows. -/
theorem c2_fp_array (parse : String → Option Mol) (fpv : Mol → List Nat)
    (hfp : ∀ m : Mol, (fpv m).length = 1024) (lines : List String) (h : String) :
    (make_np_array (generate_fingerprints parse fpv lines).1).dtype = "float32" ∧
    (make_np_array (generate_fingerprints parse fpv lines).1).rows =
      (generate_fingerprints parse fpv lines).1 ∧
    (generate_fingerprints parse fpv lines).1 =
      (specAcceptedRecords parse (lines.drop 1)).map (fun r => fpOf parse fpv r.1) ∧
    ((generate_fingerprints parse fpv lines).1 = [] →
      (make_np_array (generate_fingerprints parse fpv lines).1).shape = [0]) ∧
    ((generate_fingerprints parse fpv lines).1 ≠ [] →
      (make_np_array (generate_fingerprints parse fpv lines).1).shape =
        [(generate_fingerprints parse fpv lines).1.length, 1024]) ∧
    generate_fingerprints parse fpv [h] = ([], [], []) ∧
    runPipeline parse fpv [h] = (⟨[0], "float32", []⟩, [], []) := by
  have hmap : (generate_fingerprints parse fpv lines).1 =
      (specAcceptedRecords parse (lines.drop 1)).map (fun r => fpOf parse fpv r.1) := by
    unfold generate_fingerprints
    rw [genLoop_eq_spec parse fpv (lines.drop 1)]
  refine ⟨rfl, rfl, hmap, ?_, ?_, rfl, rfl⟩
  · intro h0
    simp [make_np_array, h0, npShape]
  · intro hne
    cases hrec : specAcceptedRecords parse (lines.drop 1) with
    | nil => exact absurd (by rw [hmap, hrec]; rfl) hne
    | cons r rs =>
      have hr : (parse r.1).isSome = true :=
        specAcceptedRecords_isSome parse (lines.drop 1) r
          (by rw [hrec]; exact List.mem_cons_self r rs)
      obtain ⟨m, hm⟩ := Option.isSome_iff_exists.mp hr
      have hrow : fpOf parse fpv r.1 = fpv m := by
        unfold fpOf; rw [hm]
      rw [hmap, hrec]
      simp [make_np_array, npShape, hrow, hfp m]

/-- Witness for the amended C2: one accepted record gives shape
`[1, 1024]`; a header-only file gives shape `[0]` and empty columns. -/
theorem c2_fp_array_witness :
    (make_np_array (generate_fingerprints parseAll fpOnes ["h", "CC m"]).1).shape
      = [1, 1024] ∧
    (make_np_array (generate_fingerprints parseAll fpOnes ["h"]).1).shape = [0] ∧
    runPipeline parseAll fpOnes ["h"] = (⟨[0], "float32", []⟩, [], []) := by
  have h1 := (c2_fp_array parseAll fpOnes (fun _ => List.length_replicate 1024 1)
    ["h", "CC m"] "h").2.2.2.2.1 (by decide)
  have h2 := (c2_fp_array parseAll fpOnes (fun _ => List.length_replicate 1024 1)
    ["h"] "h").2.2.2.1 (by decide)
  have h3 := (c2_fp_array parseAll fpOnes (fun _ => List.length_replicate 1024 1)
    ["h"] "h").2.2.2.2.2.2
  refine ⟨?_, h2, h3⟩
  rw [h1]
  decide

/-- Claim C4 counterexample: `save_data` has no `with` block and no
`try/finally`, so on the exit path where writing the first column raises,
the handle is acquired but `close()` never runs before the error
propagates — the handle is not released on every exit path. -/
theorem c4_counterexample :
    (save_data false true false false).raised = some "fp_list" ∧
    (save_data false true false false).handleAcquired = true ∧
    (save_data false true false false).handleClosed = false :=
  ⟨rfl, rfl, rfl⟩

/-- Claim C4 (amended): the output handle is closed only on the normal
completion path; if writing one of the three columns raises, the close
call is skipped and the error propagates with the handle still open,
leaving a partial file on disk (the already-created output file). -/
theorem c4_close_only_on_success (failOpen failFp failSmiles failNames : Bool) :
    ((save_data failOpen failFp failSmiles failNames).raised = none →
      (save_data failOpen failFp failSmiles failNames).handleClosed = true ∧
      (save_data failOpen failFp failSmiles failNames).fileCreated = true) ∧
    ((save_data failOpen failFp failSmiles failNames).handleAcquired = true →
      (save_data failOpen failFp failSmiles failNames).raised ≠ none →
      (save_data failOpen failFp failSmiles failNames).handleClosed = false ∧
      (save_data failOpen failFp failSmiles failNames).fileCreated = true) ∧
    ((save_data failOpen failFp failSmiles failNames).handleClosed = true →
      (save_data failOpen failFp failSmiles failNames).raised = none) := by
  cases failOpen <;> cases failFp <;> cases failSmiles <;> cases failNames <;> decide

/-- Witness for the amended C4: with no failures the handle is closed and
the file written; with a failing smiles-column write the handle stays
open. -/
theorem c4_close_only_on_success_witness :
    (save_data false false false false).handleClosed = true ∧
    (save_data false false false false).fileCreated = true ∧
    (save_data false false true false).handleClosed = false :=
  ⟨((c4_close_only_on_success false false false false).1 rfl).1,
   ((c4_close_only_on_success false false false false).1 rfl).2,
   ((c4_close_only_on_success false false true false).2.1 rfl (by decide)).1⟩

/-- Claim C7: if `len(sys.argv) != 3` (the positional argument count
differs from two), the usage line naming the program is printed to stdout
and the process exits with status 1 before the pipeline runs (no output
file can be created); with exactly two arguments the guard falls through
and `main` runs on them. -/
theorem c7_usage_guard (argv : List String) :
    (argv.length ≠ 3 →
      topLevel argv =
        ⟨some ("usage: " ++ argv.headD "" ++ " infile.smi outfile.h5"),
         some 1, none⟩) ∧
    (argv.length = 3 →
      topLevel argv =
        ⟨none, none, some ((argv.drop 1).headD "", (argv.drop 2).headD "")⟩) := by
  constructor
  · intro h
    simp [topLevel, h]
  · intro h
    simp [topLevel, h]

/-- Witness for C7: one argument triggers the usage exit; two arguments
run the pipeline on them. -/
theorem c7_usage_guard_witness :
    topLevel ["gen_fp.py"] =
      ⟨some "usage: gen_fp.py infile.smi outfile.h5", some 1, none⟩ ∧
    topLevel ["gen_fp.py", "in.smi", "out.h5"] =
      ⟨none, none, some ("in.smi", "out.h5")⟩ := by
  constructor
  · rw [(c7_usage_guard ["gen_fp.py"]).1 (by decide)]
    decide
  · rw [(c7_usage_guard ["gen_fp.py", "in.smi", "out.h5"]).2 (by decide)]
    decide

/-- Claim C10: `main` calls `generate_fingerprints` and `make_np_array`
before `save_data`, and `save_data`'s `h5py.File(outfile_name, 'w')` is
the only operation on the output path; so if the input phase raises
(input file unopenable or a record's processing raising), nothing ever
touches the output path, and conversely any touch of the output path
implies the input phase returned successfully. -/
theorem c10_no_output_on_input_failure (ip : Except String (List (List Nat)))
    (failOpen failFp failSmiles failNames : Bool) :
    (∀ e, ip = .error e →
      mainRun ip failOpen failFp failSmiles failNames = ⟨false, none⟩) ∧
    ((mainRun ip failOpen failFp failSmiles failNames).outputTouched = true →
      (∃ fps, ip = .ok fps) ∧ failOpen = false) := by
  constructor
  · rintro e rfl
    rfl
  · intro h
    cases ip with
    | error e => exact absurd h (by simp [mainRun])
    | ok fps =>
      refine ⟨⟨fps, rfl⟩, ?_⟩
      cases failOpen
      · rfl
      · exact absurd h (by simp [mainRun, save_data])

/-- Witness for C10: a failed input open touches nothing at the output
path; a successful input phase with a working writer does create the
file. -/
theorem c10_no_output_on_input_failure_witness :
    mainRun (.error "No such file or directory") false false false false =
      ⟨false, none⟩ ∧
    (∃ fps, (Except.ok [[1]] : Except String (List (List Nat))) = .ok fps) :=
  ⟨(c10_no_output_on_input_failure (.error "No such file or directory")
      false false false false).1 "No such file or directory" rfl,
   ((c10_no_output_on_input_failure (.ok [[1]]) false false false false).2 rfl).1⟩

end GenFp
